import Mathlib

/-!
Verification development for the multi-source recommendation engine of the
productivity application: the schedule-optimization service
(`auto_scheduling_service.py`) and the predictive-task service
(`predictive_tasks_service.py`).  Historical sessions, schedule blocks and
predictions are embedded as Lean structures; scores are rational numbers;
fallible external collaborators (database, calendar, cache) are parameters
returning `Except`.
-/

namespace ProductivityEngine

/-! ### Signal aggregation: `_get_productivity_patterns` -/

/-- A completed pomodoro session as consumed by the aggregator: the hour and
weekday of `completed_at`, the optional `focus_score`, and the `interrupted`
flag. -/
structure Session where
  hour : Fin 24
  weekday : Fin 7
  focusScore : Option ℚ
  interrupted : Bool
  deriving DecidableEq

/-- One entry of the per-hour productivity map. -/
structure HourlyStat where
  avgFocusScore : ℚ
  avgCompletionRate : ℚ
  interruptionRate : ℚ
  sessionCount : Nat
  deriving DecidableEq

/-- One optimal focus block; `focusQuality` is an optional key because the
default pattern's block carries no quality entry. -/
structure FocusBlock where
  startHour : Nat
  endHour : Nat
  productivityScore : ℚ
  focusQuality : Option String
  deriving DecidableEq

/-- The `ProductivityPattern` dataclass (the unused `energy_levels` extra is
omitted; both dicts always carry all 24 hours / 7 weekdays). -/
structure ProductivityPattern where
  hourlyProductivity : Fin 24 → HourlyStat
  dailyProductivity : Fin 7 → ℚ
  optimalFocusBlocks : List FocusBlock
  peakHours : List (Fin 24)
  lowEnergyHours : List (Fin 24)
  contextSwitchTolerance : ℚ

/-- `session.focus_score or 0.5`: Python `or` also replaces a zero score. -/
def focusOf (s : Session) : ℚ :=
  match s.focusScore with
  | none => 1/2
  | some x => if x = 0 then 1/2 else x

/-- `1.0 if not session.interrupted else 0.7`. -/
def completionOf (s : Session) : ℚ := if s.interrupted then 7/10 else 1

/-- `1 if session.interrupted else 0`. -/
def interruptionOf (s : Session) : ℚ := if s.interrupted then 1 else 0

/-- `np.mean` over a nonempty list of rationals. -/
def listMean (l : List ℚ) : ℚ := l.sum / (l.length : ℚ)

/-- Sessions whose `completed_at.hour` equals `h`. -/
def hourlySessions (sessions : List Session) (h : Fin 24) : List Session :=
  sessions.filter (fun s => s.hour = h)

/-- The hourly averages; hours with no samples get the `{0.5, 0.5, 0.5, 0}`
defaults. -/
def hourlyStat (sessions : List Session) (h : Fin 24) : HourlyStat :=
  let hs := hourlySessions sessions h
  if hs.isEmpty then ⟨1/2, 1/2, 1/2, 0⟩
  else ⟨listMean (hs.map focusOf), listMean (hs.map completionOf),
        listMean (hs.map interruptionOf), hs.length⟩

/-- Hour lookup by plain natural index (the source dict holds all 24 keys). -/
def hourlyStatN (sessions : List Session) (n : Nat) : HourlyStat :=
  hourlyStat sessions ⟨n % 24, Nat.mod_lt n (by norm_num)⟩

/-- The `(hour, avg_focus_score)` list, in hour order 0..23. -/
def hourlyScores (sessions : List Session) : List (Fin 24 × ℚ) :=
  (List.finRange 24).map (fun h => (h, (hourlyStat sessions h).avgFocusScore))

/-- Descending-by-score order used by `hourly_scores.sort(key=..., reverse=True)`;
a stable insertion sort reproduces Python's stable sort. -/
def scoreDescRel : (Fin 24 × ℚ) → (Fin 24 × ℚ) → Prop := fun a b => b.2 ≤ a.2

instance : DecidableRel scoreDescRel :=
  fun a b => inferInstanceAs (Decidable (b.2 ≤ a.2))

instance : IsTotal (Fin 24 × ℚ) scoreDescRel := ⟨fun a b => le_total b.2 a.2⟩

instance : IsTrans (Fin 24 × ℚ) scoreDescRel := ⟨fun _ _ _ hab hbc => le_trans hbc hab⟩

/-- The sliding 2-hour windows over start hours 0..21 whose average score
exceeds 0.75, labelled `high` above 0.85 and `medium` otherwise. -/
def optimalBlocks (sessions : List Session) : List FocusBlock :=
  (List.range 22).filterMap (fun start =>
    let avg := ((hourlyStatN sessions start).avgFocusScore
      + (hourlyStatN sessions (start + 1)).avgFocusScore) / 2
    if avg > 3/4 then
      some ⟨start, start + 2, avg, some (if avg > 17/20 then "high" else "medium")⟩
    else none)

/-- `sum(1 for s in sessions if s.interrupted) / len(sessions)`. -/
def overallInterruptionRate (sessions : List Session) : ℚ :=
  ((sessions.filter (fun s => s.interrupted)).length : ℚ) / (sessions.length : ℚ)

/-- The success path of `_get_productivity_patterns`, computed from the
sessions of the 90-day window. -/
def buildProductivityPattern (sessions : List Session) : ProductivityPattern :=
  let sorted := List.insertionSort scoreDescRel (hourlyScores sessions)
  let thr := (hourlyScores sessions).length / 4
  { hourlyProductivity := fun h => hourlyStat sessions h
    dailyProductivity := fun d =>
      let ds := sessions.filter (fun s => s.weekday = d)
      if ds.isEmpty then 1/2 else listMean (ds.map focusOf)
    optimalFocusBlocks := optimalBlocks sessions
    peakHours := (sorted.take thr).map Prod.fst
    lowEnergyHours := (sorted.drop (sorted.length - thr)).map Prod.fst
    contextSwitchTolerance :=
      if sessions.isEmpty then 1/2
      else max (1/10) (1 - overallInterruptionRate sessions) }

/-- The fixed pattern substituted when the historical data source fails. -/
def defaultProductivityPattern : ProductivityPattern :=
  { hourlyProductivity := fun _ => ⟨1/2, 1/2, 3/10, 0⟩
    dailyProductivity := fun _ => 1/2
    optimalFocusBlocks := [⟨9, 11, 4/5, none⟩]
    peakHours := [9, 10, 14, 15]
    lowEnergyHours := [12, 13, 16, 17]
    contextSwitchTolerance := 3/5 }

/-- `_get_productivity_patterns`: builds the pattern from the queried sessions
and falls back to the default pattern when the data source raises. -/
def getProductivityPatterns : Except String (List Session) → ProductivityPattern
  | .ok sessions => buildProductivityPattern sessions
  | .error _ => defaultProductivityPattern

/-! ### Candidate generation: `_identify_optimization_opportunities` -/

/-- The `OptimizationType` enumeration. -/
inductive OptimizationType where
  | MOVE_MEETING_FROM_PEAK_FOCUS
  | BLOCK_FOCUS_TIME
  | RESCHEDULE_LOW_ENERGY_TASKS
  | CONSOLIDATE_MEETINGS
  | ADD_BUFFER_TIME
  | OPTIMIZE_CONTEXT_SWITCHING
  deriving DecidableEq

/-- The `.value` string of each enumeration member. -/
def optTypeValue : OptimizationType → String
  | .MOVE_MEETING_FROM_PEAK_FOCUS => "move_meeting_from_peak_focus"
  | .BLOCK_FOCUS_TIME => "block_focus_time"
  | .RESCHEDULE_LOW_ENERGY_TASKS => "reschedule_low_energy_tasks"
  | .CONSOLIDATE_MEETINGS => "consolidate_meetings"
  | .ADD_BUFFER_TIME => "add_buffer_time"
  | .OPTIMIZE_CONTEXT_SWITCHING => "optimize_context_switching"

/-- A `ScheduleBlock`: `start_time` is split into a day index and an hour;
the remaining fields are the ones the generators read. -/
structure ScheduleBlock where
  day : Nat
  hour : Fin 24
  title : String
  blockType : String
  moveable : Bool
  importance : ℚ
  energyRequirement : ℚ
  deriving DecidableEq

/-- A `ScheduleOptimization` candidate with the fields consumed downstream
(gating, ranking, execution records, focus-block duration). -/
structure ScheduleOptimization where
  optimizationType : OptimizationType
  title : String
  confidence : ℚ
  impactScore : ℚ
  duration : Option Nat
  deriving DecidableEq

/-- `list(range(9, 18))`. -/
def workingHours : List (Fin 24) := [9, 10, 11, 12, 13, 14, 15, 16, 17]

/-- The hourly average focus score of a pattern. -/
def patternScore (patterns : ProductivityPattern) (h : Fin 24) : ℚ :=
  (patterns.hourlyProductivity h).avgFocusScore

/-- Python `max(hours, key=f)`: the first maximal element; `none` models the
`ValueError` raised on an empty list. -/
def argmaxBy (f : Fin 24 → ℚ) : List (Fin 24) → Option (Fin 24)
  | [] => none
  | h :: t => some (t.foldl (fun best x => if f x > f best then x else best) h)

/-- Python `min(hours, key=f)`: the first minimal element. -/
def argminBy (f : Fin 24 → ℚ) : List (Fin 24) → Option (Fin 24)
  | [] => none
  | h :: t => some (t.foldl (fun best x => if f x < f best then x else best) h)

/-- `_find_optimal_time_slot`. -/
def findOptimalTimeSlot (patterns : ProductivityPattern) (b : ScheduleBlock) :
    Option (Fin 24) :=
  if b.energyRequirement > 7/10 then
    argmaxBy (patternScore patterns) patterns.peakHours
  else
    argminBy (patternScore patterns) workingHours

/-- `_find_meeting_alternative_time`: closest-to-0.6 non-peak working hour,
or the block's own hour when every working hour is a peak hour. -/
def findMeetingAlternativeTime (patterns : ProductivityPattern)
    (b : ScheduleBlock) : Fin 24 :=
  let nonPeak := workingHours.filter (fun h => h ∉ patterns.peakHours)
  match argminBy (fun h => |patternScore patterns h - 3/5|) nonPeak with
  | some h => h
  | none => b.hour

/-- The high-energy-task reschedule candidate of one block; `none` models the
exception when the slot finder is called with empty `peak_hours`. -/
def taskRescheduleOpts (patterns : ProductivityPattern) (b : ScheduleBlock) :
    Option (List ScheduleOptimization) :=
  if b.blockType = "task" ∧ b.energyRequirement > 7/10
      ∧ b.hour ∈ patterns.lowEnergyHours then
    match findOptimalTimeSlot patterns b with
    | none => none
    | some s =>
      some (if s ≠ b.hour then
        [⟨.RESCHEDULE_LOW_ENERGY_TASKS, "Reschedule " ++ b.title, 17/20, 7/10, none⟩]
      else [])
  else some []

/-- The move-meeting-out-of-peak candidate of one block. -/
def meetingMoveOpts (patterns : ProductivityPattern) (b : ScheduleBlock) :
    List ScheduleOptimization :=
  if b.blockType = "meeting" ∧ b.hour ∈ patterns.peakHours
      ∧ b.importance < 9/10 then
    if findMeetingAlternativeTime patterns b ≠ b.hour then
      [⟨.MOVE_MEETING_FROM_PEAK_FOCUS, "Reschedule " ++ b.title, 4/5, 3/5, none⟩]
    else []
  else []

/-- Per-block candidates; immovable blocks are skipped. -/
def blockOpts (patterns : ProductivityPattern) (b : ScheduleBlock) :
    Option (List ScheduleOptimization) :=
  if b.moveable then
    match taskRescheduleOpts patterns b with
    | none => none
    | some l => some (l ++ meetingMoveOpts patterns b)
  else some []

/-- The per-block scan of the schedule, in schedule order. -/
def collectBlockOpts (patterns : ProductivityPattern) :
    List ScheduleBlock → Option (List ScheduleOptimization)
  | [] => some []
  | b :: rest =>
    match blockOpts patterns b, collectBlockOpts patterns rest with
    | some l, some ls => some (l ++ ls)
    | _, _ => none

/-- `_identify_focus_block_opportunities`. -/
def focusBlockOpts (schedule : List ScheduleBlock)
    (patterns : ProductivityPattern) : List ScheduleOptimization :=
  patterns.optimalFocusBlocks.flatMap (fun fb =>
    let conflicts := schedule.filter (fun b =>
      fb.startHour ≤ b.hour.val ∧ b.hour.val < fb.endHour
        ∧ b.moveable ∧ b.importance < 7/10)
    if conflicts.length ≤ 1 then
      [⟨.BLOCK_FOCUS_TIME,
        "Block focus time " ++ toString fb.startHour ++ ":00-"
          ++ toString fb.endHour ++ ":00",
        9/10, 4/5, some ((fb.endHour - fb.startHour) * 60)⟩]
    else [])

/-- First-appearance-ordered distinct day keys, as in a Python dict built by
insertion. -/
def dedupDays : List Nat → List Nat → List Nat
  | [], _ => []
  | d :: rest, seen =>
    if d ∈ seen then dedupDays rest seen else d :: dedupDays rest (d :: seen)

/-- `_identify_meeting_consolidation`. -/
def consolidationOpts (schedule : List ScheduleBlock) : List ScheduleOptimization :=
  let meetings := schedule.filter (fun b => b.blockType = "meeting" ∧ b.moveable)
  (dedupDays (meetings.map (fun b => b.day)) []).flatMap (fun d =>
    let dayMeetings := meetings.filter (fun b => b.day = d)
    if dayMeetings.length ≥ 2 then
      match dayMeetings.map (fun b => b.hour.val) with
      | [] => []
      | a :: rest =>
        if rest.foldl Nat.max a - rest.foldl Nat.min a > 4 then
          [⟨.CONSOLIDATE_MEETINGS, "Consolidate meetings on " ++ toString d,
            7/10, 1/2, none⟩]
        else []
    else [])

/-- Descending-by-impact order of `optimizations.sort(key=..., reverse=True)`. -/
def impactDescRel : ScheduleOptimization → ScheduleOptimization → Prop :=
  fun a b => b.impactScore ≤ a.impactScore

instance : DecidableRel impactDescRel :=
  fun a b => inferInstanceAs (Decidable (b.impactScore ≤ a.impactScore))

instance : IsTotal ScheduleOptimization impactDescRel :=
  ⟨fun a b => le_total b.impactScore a.impactScore⟩

instance : IsTrans ScheduleOptimization impactDescRel :=
  ⟨fun _ _ _ hab hbc => le_trans hbc hab⟩

/-- The candidate pipeline of `_identify_optimization_opportunities` before
its exception handler: per-block candidates, focus blocks, consolidations,
then the stable sort by impact. -/
def identifyCore (schedule : List ScheduleBlock) (patterns : ProductivityPattern) :
    Option (List ScheduleOptimization) :=
  match collectBlockOpts patterns schedule with
  | none => none
  | some per =>
    some (List.insertionSort impactDescRel
      (per ++ focusBlockOpts schedule patterns ++ consolidationOpts schedule))

/-- `_identify_optimization_opportunities`: any internal exception degrades to
an empty candidate list. -/
def identifyOptimizationOpportunities (schedule : List ScheduleBlock)
    (patterns : ProductivityPattern) : List ScheduleOptimization :=
  (identifyCore schedule patterns).getD []

/-! ### Execution: `_execute_optimization` and the selection loop -/

/-- The dict a type-specific executor returns before `_execute_optimization`
adds the gain and confidence keys. -/
structure ExecBase where
  optTypeStr : String
  status : String
  error : Option String
  durationMinutes : Option Nat
  deriving DecidableEq

/-- An entry of the `executed_optimizations` list. -/
structure ExecRecord where
  optTypeStr : String
  status : String
  error : Option String
  gain : Option ℚ
  confidence : Option ℚ
  durationMinutes : Option Nat
  deriving DecidableEq

/-- The external collaborator calls behind the four type-specific executors;
each may raise. The source's mock bodies are `mockEffects`. -/
structure SchedulingEffects where
  rescheduleMeeting : ScheduleOptimization → Except String ExecBase
  createFocusTask : ScheduleOptimization → Except String Nat
  rescheduleTask : ScheduleOptimization → Except String ExecBase
  consolidateMeetings : ScheduleOptimization → Except String ExecBase

/-- `_create_focus_block`: its own handler turns a task-store failure into a
`failed` record instead of raising. -/
def createFocusBlockRecord (eff : SchedulingEffects) (o : ScheduleOptimization) :
    ExecBase :=
  match eff.createFocusTask o with
  | .ok _ => ⟨"focus_block_created", "created", none, o.duration⟩
  | .error e => ⟨"focus_block_created", "failed", some e, none⟩

/-- The type dispatch of `_execute_optimization`. -/
def dispatchCall (eff : SchedulingEffects) (o : ScheduleOptimization) :
    Except String ExecBase :=
  match o.optimizationType with
  | .MOVE_MEETING_FROM_PEAK_FOCUS => eff.rescheduleMeeting o
  | .BLOCK_FOCUS_TIME => .ok (createFocusBlockRecord eff o)
  | .RESCHEDULE_LOW_ENERGY_TASKS => eff.rescheduleTask o
  | .CONSOLIDATE_MEETINGS => eff.consolidateMeetings o
  | t => .ok ⟨optTypeValue t, "not_implemented", none, none⟩

/-- `_execute_optimization`: on success the gain and confidence keys are
added; an executor exception yields the `failed` record with the message. -/
def executeOptimization (eff : SchedulingEffects) (o : ScheduleOptimization) :
    ExecRecord :=
  match dispatchCall eff o with
  | .ok r => ⟨r.optTypeStr, r.status, r.error, some o.impactScore,
              some o.confidence, r.durationMinutes⟩
  | .error e => ⟨optTypeValue o.optimizationType, "failed", some e, none, none, none⟩

/-- The confidence/impact gate of the selection loop. -/
def qualifies (o : ScheduleOptimization) : Prop :=
  o.confidence > 4/5 ∧ o.impactScore > 3/5

instance : DecidablePred qualifies :=
  fun o => inferInstanceAs (Decidable (o.confidence > 4/5 ∧ o.impactScore > 3/5))

/-- The selection-and-execution loop of `optimize_schedule`: iterate ranked
candidates, executing those that pass the gate while fewer than 5 have run. -/
def executeLoop (eff : SchedulingEffects) :
    List ScheduleOptimization → Nat → List (ScheduleOptimization × ExecRecord)
  | [], _ => []
  | o :: rest, count =>
    if qualifies o ∧ count < 5 then
      (o, executeOptimization eff o) :: executeLoop eff rest (count + 1)
    else executeLoop eff rest count

/-- The value returned (and cached) by `optimize_schedule`; the impact summary
is a pure aggregate of `executed` and is not modelled separately. -/
structure SchedRunResult where
  executed : List ExecRecord
  suggested : List ScheduleOptimization
  deriving DecidableEq

/-- `_get_current_schedule` catches its failures and returns an empty list. -/
def scheduleOf : Except String (List ScheduleBlock) → List ScheduleBlock
  | .ok s => s
  | .error _ => []

/-- The ranked candidate list a run works from. -/
def opportunitiesOf (pSrc : Except String (List Session))
    (sSrc : Except String (List ScheduleBlock)) : List ScheduleOptimization :=
  identifyOptimizationOpportunities (scheduleOf sSrc) (getProductivityPatterns pSrc)

/-- `optimize_schedule`: every stage handles its own failures, so the body
never reaches the final re-raise; `suggested` is the ranked list with the
first `executed_count` entries dropped. -/
def optimizeScheduleRun (pSrc : Except String (List Session))
    (sSrc : Except String (List ScheduleBlock)) (eff : SchedulingEffects) :
    Except String SchedRunResult :=
  let opts := opportunitiesOf pSrc sSrc
  let pairs := executeLoop eff opts 0
  .ok ⟨pairs.map Prod.snd, opts.drop pairs.length⟩

/-- The pure mock executors of the source, around an injectable task store. -/
def mockEffects (createFocus : ScheduleOptimization → Except String Nat) :
    SchedulingEffects where
  rescheduleMeeting := fun _ => .ok ⟨"meeting_reschedule", "suggested", none, none⟩
  createFocusTask := createFocus
  rescheduleTask := fun _ => .ok ⟨"task_reschedule", "rescheduled", none, none⟩
  consolidateMeetings := fun _ => .ok ⟨"meeting_consolidation", "suggested", none, none⟩

/-! ### Predictive tasks: generators, deduplication, ranking, auto-creation -/

/-- The `PredictionSource` enumeration. -/
inductive PredictionSource where
  | PATTERN_BASED
  | CALENDAR_BASED
  | GOAL_BASED
  | DEADLINE_BASED
  | AI_GENERATED
  deriving DecidableEq

/-- A `PredictedTask` after `asdict`, with the fields consumed downstream;
datetimes are minutes, so a day is 1440. -/
structure Prediction where
  title : String
  description : String
  estimatedDuration : Option Int
  confidence : ℚ
  source : PredictionSource
  priority : String
  dueDate : Option Int
  reasoning : String
  deriving DecidableEq

/-- `pred['title'].lower().strip()`, over the character list so the kernel can
evaluate it. -/
def normalizeTitle (s : String) : List Char :=
  let lowered := s.data.map Char.toLower
  ((lowered.dropWhile Char.isWhitespace).reverse.dropWhile Char.isWhitespace).reverse

/-- The deduplication fold of `_combine_predictions`: drop a prediction whose
normalized title is already in the seen set, else keep it and record the key. -/
def dedupByTitle : List Prediction → List (List Char) → List Prediction
  | [], _ => []
  | p :: rest, seen =>
    if normalizeTitle p.title ∈ seen then dedupByTitle rest seen
    else p :: dedupByTitle rest (normalizeTitle p.title :: seen)

/-- `_combine_predictions`: flatten the generator outputs in declared order,
then deduplicate by normalized title with first occurrence winning. -/
def combinePredictions (groups : List (List Prediction)) : List Prediction :=
  dedupByTitle groups.flatten []

/-- `priority_weights.get(pred.get('priority', 'medium'), 0.5)`. -/
def priorityWeight (p : String) : ℚ :=
  if p = "low" then 1/5
  else if p = "medium" then 1/2
  else if p = "high" then 4/5
  else if p = "critical" then 1
  else 1/2

/-- `(due_date - datetime.now()).days`: floor division of the minute
difference by a day. -/
def daysUntil (dueDate now : Int) : Int := (dueDate - now).fdiv 1440

/-- The time-urgency bonus of `_rank_by_importance`. -/
def urgencyBonus (dueDate : Option Int) (now : Int) : ℚ :=
  match dueDate with
  | none => 0
  | some d =>
    if daysUntil d now ≤ 1 then 3/10
    else if daysUntil d now ≤ 3 then 1/5
    else if daysUntil d now ≤ 7 then 1/10
    else 0

/-- The source reliability weights. -/
def sourceWeight : PredictionSource → ℚ
  | .DEADLINE_BASED => 9/10
  | .CALENDAR_BASED => 4/5
  | .PATTERN_BASED => 7/10
  | .GOAL_BASED => 3/5
  | .AI_GENERATED => 1/2

/-- The importance score of `_rank_by_importance`, capped at 1. -/
def importanceScore (p : Prediction) (now : Int) : ℚ :=
  min 1 (p.confidence * (2/5) + priorityWeight p.priority * (3/10)
    + urgencyBonus p.dueDate now + sourceWeight p.source * (1/5))

/-- Descending order by importance score for the final stable sort. -/
def importanceDescRel (now : Int) : Prediction → Prediction → Prop :=
  fun a b => importanceScore b now ≤ importanceScore a now

instance (now : Int) : DecidableRel (importanceDescRel now) :=
  fun a b => inferInstanceAs (Decidable (importanceScore b now ≤ importanceScore a now))

/-- `_rank_by_importance`: stable sort descending by importance score. -/
def rankByImportance (l : List Prediction) (now : Int) : List Prediction :=
  List.insertionSort (importanceDescRel now) l

/-- The field values `_auto_create_task` hands to the task store. -/
structure NewTaskFields where
  title : String
  description : String
  priority : String
  estimatedPomodoros : Int
  dueDate : Option Int
  deriving DecidableEq

/-- The persisted `Task` row built from a prediction; the source file writes
a literal backslash-n escape inside the f-string, reproduced here. -/
def taskFieldsOf (p : Prediction) : NewTaskFields where
  title := p.title
  description := "[AUTO-GENERATED] " ++ p.description ++ "\\n\\nReasoning: " ++ p.reasoning
  priority := p.priority
  estimatedPomodoros := max 1 ((p.estimatedDuration.getD 25).fdiv 25)
  dueDate := p.dueDate

/-- The dict returned for an auto-created task. -/
structure CreatedTask where
  id : Nat
  title : String
  description : String
  confidence : ℚ
  source : PredictionSource
  autoCreated : Bool
  deriving DecidableEq

/-- `_auto_create_task`: a task-store failure is logged and re-raised, so the
caller sees the error instead of a failure record. -/
def autoCreateTask (create : NewTaskFields → Except String Nat) (p : Prediction) :
    Except String CreatedTask :=
  match create (taskFieldsOf p) with
  | .ok id => .ok ⟨id, p.title, (taskFieldsOf p).description, p.confidence, p.source, true⟩
  | .error e => .error e

/-- The auto-creation loop over the top-ranked predictions: create each with
confidence above 0.85; a creation failure aborts the whole loop. -/
def autoCreateSelected (create : NewTaskFields → Except String Nat) :
    List Prediction → Except String (List CreatedTask)
  | [] => .ok []
  | p :: rest =>
    if p.confidence > 17/20 then
      match autoCreateTask create p with
      | .ok t =>
        match autoCreateSelected create rest with
        | .ok ts => .ok (t :: ts)
        | .error e => .error e
      | .error e => .error e
    else autoCreateSelected create rest

/-- The context bundle of `_gather_prediction_context`; the generator bodies
that read it are abstracted as parameters of the run. -/
structure PredictionContext where
  userId : String
  timeOfDay : String
  dayOfWeek : String
  deriving DecidableEq

/-- Each `_X_based_prediction` generator catches its own failure and yields
an empty list. -/
def runGenerator (g : PredictionContext → Except String (List Prediction))
    (ctx : PredictionContext) : List Prediction :=
  match g ctx with
  | .ok l => l
  | .error _ => []

/-- The value returned by `generate_predictive_tasks` (the `sources_used`
set of the summary is omitted). -/
structure PredRunResult where
  autoCreatedTasks : List CreatedTask
  suggestedTasks : List Prediction
  totalPredictions : Nat
  highConfidenceCount : Nat
  deriving DecidableEq

/-- `generate_predictive_tasks`: a context-gathering failure and an
auto-creation failure both propagate through the outer handler's re-raise;
generator failures are absorbed generator-by-generator. -/
def generatePredictiveTasks (ctxSrc : Except String PredictionContext)
    (generators : List (PredictionContext → Except String (List Prediction)))
    (create : NewTaskFields → Except String Nat) (now : Int) :
    Except String PredRunResult :=
  match ctxSrc with
  | .error e => .error e
  | .ok ctx =>
    let groups := generators.map (fun g => runGenerator g ctx)
    let ranked := rankByImportance (combinePredictions groups) now
    match autoCreateSelected create (ranked.take 3) with
    | .error e => .error e
    | .ok auto =>
      .ok ⟨auto, ranked.take 10, ranked.length,
        (ranked.filter (fun p => p.confidence > 4/5)).length⟩

/-! ### Concrete run inputs used in the scenario evaluations -/

/-- One uninterrupted session per hour: hourly averages 0.5 everywhere except
0.9 at hour 10 and 0.95 at hour 11. -/
def sessions24 : List Session :=
  (List.finRange 24).map (fun h =>
    ⟨h, 0, some (if h = 10 then 9/10 else if h = 11 then 19/20 else 1/2), false⟩)

/-- A single interrupted session. -/
def sessionI : Session := ⟨9, 0, some (4/5), true⟩

/-- A concrete gathered context. -/
def ctx0 : PredictionContext := ⟨"1", "morning", "Monday"⟩

/-- A deadline-generator candidate at confidence 0.95. -/
def pred95 : Prediction :=
  ⟨"URGENT PREP: Tax filing", "Last-minute preparation for imminent deadline",
   some 60, 19/20, .DEADLINE_BASED, "critical", none, "Deadline is within 24 hours"⟩

/-- A calendar follow-up candidate at confidence 0.9. -/
def predA : Prediction :=
  ⟨"Follow up on Client presentation", "Send summary and action items to participants",
   some 20, 9/10, .CALENDAR_BASED, "medium", none, "Client meetings typically require follow-up"⟩

/-- A second high-confidence candidate. -/
def predB : Prediction :=
  ⟨"Prepare for Client presentation", "Meeting preparation: agenda review, materials gathering",
   some 30, 9/10, .CALENDAR_BASED, "medium", none, "Important meeting requires preparation"⟩

/-- A candidate with a sub-pomodoro duration estimate. -/
def predShort : Prediction :=
  ⟨"Review outcomes from Team standup", "Review meeting outcomes and plan next steps",
   some 10, 3/5, .CALENDAR_BASED, "medium", none, "Recurring meetings benefit from outcome reviews"⟩

/-- A generator producing the single 0.95-confidence candidate. -/
def gen95 : PredictionContext → Except String (List Prediction) :=
  fun _ => .ok [pred95]

/-- A generator producing two 0.9-confidence candidates. -/
def genAB : PredictionContext → Except String (List Prediction) :=
  fun _ => .ok [predA, predB]

/-- A task store whose create call always raises. -/
def failCreate : NewTaskFields → Except String Nat := fun _ => .error "db down"

/-- A task store whose create call always succeeds. -/
def okCreate : NewTaskFields → Except String Nat := fun _ => .ok 1

/-- Two predictions whose titles differ only by case and padding. -/
def predUpper : Prediction :=
  ⟨"Reschedule X", "", some 25, 4/5, .PATTERN_BASED, "medium", none, ""⟩

/-- The padded lower-case twin of `predUpper`. -/
def predPadded : Prediction :=
  ⟨"  reschedule x  ", "", some 25, 4/5, .PATTERN_BASED, "medium", none, ""⟩

/-- The mock executors over a task store that always succeeds. -/
def eff0 : SchedulingEffects := mockEffects (fun _ => .ok 1)

/-- Executors whose meeting-reschedule collaborator raises. -/
def effFail : SchedulingEffects :=
  { mockEffects (fun _ => .ok 1) with rescheduleMeeting := fun _ => .error "boom" }

/-- A concrete meeting-move candidate. -/
def optM : ScheduleOptimization :=
  ⟨.MOVE_MEETING_FROM_PEAK_FOCUS, "Reschedule Client Lunch Meeting", 4/5, 3/5, none⟩

/-! ### Specification-side helper definitions -/

/-- The four `(confidence, impact)` profiles the generators can emit. -/
def profileOk (o : ScheduleOptimization) : Prop :=
  (o.confidence = 17/20 ∧ o.impactScore = 7/10)
  ∨ (o.confidence = 4/5 ∧ o.impactScore = 3/5)
  ∨ (o.confidence = 9/10 ∧ o.impactScore = 4/5)
  ∨ (o.confidence = 7/10 ∧ o.impactScore = 1/2)

/-- Clamping to the unit interval, as the specification words the scorer. -/
def clamp01 (x : ℚ) : ℚ := max 0 (min 1 x)

/-- The seen-set after the deduplication fold has consumed a list. -/
def seenAfter : List Prediction → List (List Char) → List (List Char)
  | [], seen => seen
  | p :: rest, seen =>
    seenAfter rest
      (if normalizeTitle p.title ∈ seen then seen else normalizeTitle p.title :: seen)

/-! ### Helper lemmas: quartile structure of the hourly ranking -/

theorem length_hourlyScores (sessions : List Session) :
    (hourlyScores sessions).length = 24 := by
  simp [hourlyScores]

theorem map_fst_hourlyScores (sessions : List Session) :
    (hourlyScores sessions).map Prod.fst = List.finRange 24 := by
  unfold hourlyScores
  rw [List.map_map]
  have hcomp : (Prod.fst ∘ fun h : Fin 24 => (h, (hourlyStat sessions h).avgFocusScore))
      = id := rfl
  rw [hcomp, List.map_id]

theorem sortedScores_length (sessions : List Session) :
    (List.insertionSort scoreDescRel (hourlyScores sessions)).length = 24 := by
  rw [List.length_insertionSort, length_hourlyScores]

theorem nodup_map_fst_sorted (sessions : List Session) :
    ((List.insertionSort scoreDescRel (hourlyScores sessions)).map Prod.fst).Nodup := by
  have hperm := (List.perm_insertionSort scoreDescRel (hourlyScores sessions)).map Prod.fst
  rw [map_fst_hourlyScores] at hperm
  exact hperm.nodup_iff.mpr (List.nodup_finRange 24)

theorem peakHours_eq (sessions : List Session) :
    (buildProductivityPattern sessions).peakHours
      = ((List.insertionSort scoreDescRel (hourlyScores sessions)).map Prod.fst).take 6 := by
  show ((List.insertionSort scoreDescRel (hourlyScores sessions)).take
      ((hourlyScores sessions).length / 4)).map Prod.fst = _
  rw [length_hourlyScores, List.map_take]

theorem lowEnergyHours_eq (sessions : List Session) :
    (buildProductivityPattern sessions).lowEnergyHours
      = ((List.insertionSort scoreDescRel (hourlyScores sessions)).map Prod.fst).drop 18 := by
  show ((List.insertionSort scoreDescRel (hourlyScores sessions)).drop
      ((List.insertionSort scoreDescRel (hourlyScores sessions)).length
        - (hourlyScores sessions).length / 4)).map Prod.fst = _
  rw [sortedScores_length, length_hourlyScores, List.map_drop]

/-! ### Helper lemmas: the selection-and-execution loop -/

theorem executeLoop_eq_nil_of_five (eff : SchedulingEffects) :
    ∀ (l : List ScheduleOptimization) (c : Nat), 5 ≤ c → executeLoop eff l c = [] := by
  intro l
  induction l with
  | nil => intro c _; rfl
  | cons o rest ih =>
    intro c hc
    simp only [executeLoop]
    rw [if_neg (by rintro ⟨-, hlt⟩; omega), ih c hc]

theorem executeLoop_eq_nil_of_unqual (eff : SchedulingEffects) :
    ∀ (l : List ScheduleOptimization) (c : Nat), (∀ o ∈ l, ¬ qualifies o) →
      executeLoop eff l c = [] := by
  intro l
  induction l with
  | nil => intro c _; rfl
  | cons o rest ih =>
    intro c h
    simp only [executeLoop]
    rw [if_neg (fun hq => h o (List.mem_cons_self o rest) hq.1),
      ih c (fun x hx => h x (List.mem_cons_of_mem _ hx))]

theorem executeLoop_length_le (eff : SchedulingEffects) :
    ∀ (l : List ScheduleOptimization) (c : Nat), (executeLoop eff l c).length ≤ 5 - c := by
  intro l
  induction l with
  | nil => intro c; simp [executeLoop]
  | cons o rest ih =>
    intro c
    simp only [executeLoop]
    split
    · next h =>
      simp only [List.length_cons]
      have h1 := ih (c + 1)
      omega
    · exact ih c

theorem executeLoop_map_fst_indep (eff eff' : SchedulingEffects) :
    ∀ (l : List ScheduleOptimization) (c : Nat),
      (executeLoop eff l c).map Prod.fst = (executeLoop eff' l c).map Prod.fst := by
  intro l
  induction l with
  | nil => intro c; rfl
  | cons o rest ih =>
    intro c
    by_cases h : qualifies o ∧ c < 5
    · simp only [executeLoop, if_pos h, List.map_cons, ih (c + 1)]
    · simp only [executeLoop, if_neg h, ih c]

theorem profile_qualifies_iff {o : ScheduleOptimization} (h : profileOk o) :
    qualifies o ↔ 3/5 < o.impactScore := by
  rcases h with ⟨h1, h2⟩ | ⟨h1, h2⟩ | ⟨h1, h2⟩ | ⟨h1, h2⟩ <;>
    simp only [qualifies, h1, h2] <;> norm_num

theorem executeLoop_map_fst_take (eff : SchedulingEffects) :
    ∀ (l : List ScheduleOptimization) (c : Nat),
      (∀ o ∈ l, profileOk o) → List.Sorted impactDescRel l →
      (executeLoop eff l c).map Prod.fst = l.take ((executeLoop eff l c).length) := by
  intro l
  induction l with
  | nil => intro c _ _; rfl
  | cons o rest ih =>
    intro c hprof hsort
    rw [List.sorted_cons] at hsort
    by_cases h : qualifies o ∧ c < 5
    · simp only [executeLoop, if_pos h, List.map_cons, List.length_cons,
        List.take_succ_cons]
      rw [ih (c + 1) (fun x hx => hprof x (List.mem_cons_of_mem _ hx)) hsort.2]
    · simp only [executeLoop, if_neg h]
      rcases not_and_or.mp h with hq | hc
      · have hrest : ∀ x ∈ rest, ¬ qualifies x := by
          intro x hx hqx
          have hxo : x.impactScore ≤ o.impactScore := hsort.1 x hx
          have hxs : 3/5 < x.impactScore :=
            (profile_qualifies_iff (hprof x (List.mem_cons_of_mem _ hx))).mp hqx
          have hos : ¬ 3/5 < o.impactScore := fun hlt =>
            hq ((profile_qualifies_iff (hprof o (List.mem_cons_self o rest))).mpr hlt)
          exact hos (lt_of_lt_of_le hxs hxo)
        rw [executeLoop_eq_nil_of_unqual eff rest c hrest]
        rfl
      · rw [executeLoop_eq_nil_of_five eff rest c (by omega)]
        rfl

/-! ### Helper lemmas: every generated candidate carries a generator profile -/

theorem taskRescheduleOpts_profile {patterns : ProductivityPattern}
    {b : ScheduleBlock} {l : List ScheduleOptimization}
    (h : taskRescheduleOpts patterns b = some l) : ∀ o ∈ l, profileOk o := by
  unfold taskRescheduleOpts at h
  split at h
  · cases hf : findOptimalTimeSlot patterns b with
    | none => rw [hf] at h; exact absurd h (by simp)
    | some s =>
      rw [hf] at h
      have hl := Option.some.inj h
      subst hl
      intro o ho
      split at ho
      · rw [List.mem_singleton] at ho
        subst ho
        exact Or.inl ⟨rfl, rfl⟩
      · exact absurd ho (by simp)
  · have hl := Option.some.inj h
    subst hl
    intro o ho
    exact absurd ho (by simp)

theorem meetingMoveOpts_profile (patterns : ProductivityPattern) (b : ScheduleBlock) :
    ∀ o ∈ meetingMoveOpts patterns b, profileOk o := by
  intro o ho
  unfold meetingMoveOpts at ho
  split at ho
  · split at ho
    · rw [List.mem_singleton] at ho
      subst ho
      exact Or.inr (Or.inl ⟨rfl, rfl⟩)
    · exact absurd ho (by simp)
  · exact absurd ho (by simp)

theorem blockOpts_profile {patterns : ProductivityPattern} {b : ScheduleBlock}
    {l : List ScheduleOptimization} (h : blockOpts patterns b = some l) :
    ∀ o ∈ l, profileOk o := by
  unfold blockOpts at h
  split at h
  · cases ht : taskRescheduleOpts patterns b with
    | none => rw [ht] at h; exact absurd h (by simp)
    | some l1 =>
      rw [ht] at h
      have hl := Option.some.inj h
      subst hl
      intro o ho
      rcases List.mem_append.mp ho with h1 | h2
      · exact taskRescheduleOpts_profile ht o h1
      · exact meetingMoveOpts_profile patterns b o h2
  · have hl := Option.some.inj h
    subst hl
    intro o ho
    exact absurd ho (by simp)

theorem collectBlockOpts_profile {patterns : ProductivityPattern} :
    ∀ {sched : List ScheduleBlock} {per : List ScheduleOptimization},
      collectBlockOpts patterns sched = some per → ∀ o ∈ per, profileOk o := by
  intro sched
  induction sched with
  | nil =>
    intro per h
    have hl := Option.some.inj h
    subst hl
    intro o ho
    exact absurd ho (by simp)
  | cons b rest ih =>
    intro per h
    unfold collectBlockOpts at h
    cases hb : blockOpts patterns b with
    | none => rw [hb] at h; exact absurd h (by simp)
    | some l =>
      cases hr : collectBlockOpts patterns rest with
      | none => rw [hb, hr] at h; exact absurd h (by simp)
      | some ls =>
        rw [hb, hr] at h
        have hl := Option.some.inj h
        subst hl
        intro o ho
        rcases List.mem_append.mp ho with h1 | h2
        · exact blockOpts_profile hb o h1
        · exact ih hr o h2

theorem focusBlockOpts_profile (schedule : List ScheduleBlock)
    (patterns : ProductivityPattern) :
    ∀ o ∈ focusBlockOpts schedule patterns, profileOk o := by
  intro o ho
  unfold focusBlockOpts at ho
  rw [List.mem_flatMap] at ho
  obtain ⟨fb, -, hmem⟩ := ho
  dsimp only at hmem
  split at hmem
  · rw [List.mem_singleton] at hmem
    subst hmem
    exact Or.inr (Or.inr (Or.inl ⟨rfl, rfl⟩))
  · exact absurd hmem (by simp)

theorem consolidationOpts_profile (schedule : List ScheduleBlock) :
    ∀ o ∈ consolidationOpts schedule, profileOk o := by
  intro o ho
  unfold consolidationOpts at ho
  rw [List.mem_flatMap] at ho
  obtain ⟨d, -, hmem⟩ := ho
  dsimp only at hmem
  split at hmem
  · split at hmem
    · exact absurd hmem (by simp)
    · split at hmem
      · rw [List.mem_singleton] at hmem
        subst hmem
        exact Or.inr (Or.inr (Or.inr ⟨rfl, rfl⟩))
      · exact absurd hmem (by simp)
  · exact absurd hmem (by simp)

theorem mem_identify_profile {schedule : List ScheduleBlock}
    {patterns : ProductivityPattern} {o : ScheduleOptimization}
    (h : o ∈ identifyOptimizationOpportunities schedule patterns) : profileOk o := by
  unfold identifyOptimizationOpportunities identifyCore at h
  cases hc : collectBlockOpts patterns schedule with
  | none => rw [hc] at h; exact absurd h (by simp)
  | some per =>
    rw [hc] at h
    simp only [Option.getD_some, List.mem_insertionSort] at h
    rcases List.mem_append.mp h with h1 | h2
    · rcases List.mem_append.mp h1 with ha | hb
      · exact collectBlockOpts_profile hc o ha
      · exact focusBlockOpts_profile schedule patterns o hb
    · exact consolidationOpts_profile schedule o h2

theorem identify_sorted (schedule : List ScheduleBlock)
    (patterns : ProductivityPattern) :
    List.Sorted impactDescRel (identifyOptimizationOpportunities schedule patterns) := by
  unfold identifyOptimizationOpportunities identifyCore
  cases hc : collectBlockOpts patterns schedule with
  | none => simp
  | some per =>
    simp only [Option.getD_some]
    exact List.sorted_insertionSort impactDescRel _

/-! ### Helper lemmas: deduplication -/

theorem dedupByTitle_append :
    ∀ (l₁ l₂ : List Prediction) (seen : List (List Char)),
      dedupByTitle (l₁ ++ l₂) seen
        = dedupByTitle l₁ seen ++ dedupByTitle l₂ (seenAfter l₁ seen) := by
  intro l₁
  induction l₁ with
  | nil => intro l₂ seen; rfl
  | cons p rest ih =>
    intro l₂ seen
    by_cases h : normalizeTitle p.title ∈ seen
    · simp only [List.cons_append, dedupByTitle, seenAfter, if_pos h]
      exact ih l₂ seen
    · simp only [List.cons_append, dedupByTitle, seenAfter, if_neg h]
      exact congrArg (List.cons p) (ih l₂ (normalizeTitle p.title :: seen))

theorem mem_seenAfter :
    ∀ (l : List Prediction) (seen : List (List Char)) (x : List Char),
      x ∈ seenAfter l seen
        ↔ x ∈ seen ∨ x ∈ l.map (fun q => normalizeTitle q.title) := by
  intro l
  induction l with
  | nil => intro seen x; simp [seenAfter]
  | cons p rest ih =>
    intro seen x
    by_cases h : normalizeTitle p.title ∈ seen
    · rw [seenAfter, if_pos h, ih]
      simp only [List.map_cons, List.mem_cons]
      constructor
      · rintro (hx | hx)
        · exact Or.inl hx
        · exact Or.inr (Or.inr hx)
      · rintro (hx | hx | hx)
        · exact Or.inl hx
        · exact Or.inl (by rwa [hx])
        · exact Or.inr hx
    · rw [seenAfter, if_neg h, ih]
      simp only [List.map_cons, List.mem_cons]
      tauto

/-! ### Helper lemmas: the auto-creation loop -/

theorem autoCreateSelected_length {create : NewTaskFields → Except String Nat} :
    ∀ {l : List Prediction} {ts : List CreatedTask},
      autoCreateSelected create l = .ok ts → ts.length ≤ l.length := by
  intro l
  induction l with
  | nil =>
    intro ts h
    have := Except.ok.inj h
    subst this
    simp
  | cons p rest ih =>
    intro ts h
    unfold autoCreateSelected at h
    split at h
    · cases hc : autoCreateTask create p with
      | error e => rw [hc] at h; exact absurd h (by simp)
      | ok t =>
        rw [hc] at h
        cases hr : autoCreateSelected create rest with
        | error e => rw [hr] at h; exact absurd h (by simp)
        | ok ts' =>
          rw [hr] at h
          have := Except.ok.inj h
          subst this
          have := ih hr
          simp only [List.length_cons]
          omega
    · have := ih h
      simp only [List.length_cons]
      omega

theorem autoCreateSelected_ok {create : NewTaskFields → Except String Nat}
    (hok : ∀ f, ∃ id, create f = .ok id) :
    ∀ l : List Prediction, ∃ ts, autoCreateSelected create l = .ok ts := by
  intro l
  induction l with
  | nil => exact ⟨[], rfl⟩
  | cons p rest ih =>
    obtain ⟨ts, hts⟩ := ih
    by_cases h : p.confidence > 17/20
    · obtain ⟨id, hid⟩ := hok (taskFieldsOf p)
      refine ⟨⟨id, p.title, (taskFieldsOf p).description, p.confidence, p.source, true⟩ :: ts, ?_⟩
      unfold autoCreateSelected autoCreateTask
      rw [if_pos h, hid, hts]
    · refine ⟨ts, ?_⟩
      unfold autoCreateSelected
      rw [if_neg h]
      exact hts

/-! ### Helper lemmas: scorer weight ranges -/

theorem priorityWeight_nonneg (p : String) : 0 ≤ priorityWeight p := by
  unfold priorityWeight
  split_ifs <;> norm_num

theorem urgencyBonus_nonneg (d : Option Int) (now : Int) : 0 ≤ urgencyBonus d now := by
  cases d with
  | none => simp [urgencyBonus]
  | some x =>
    simp only [urgencyBonus]
    split_ifs <;> norm_num

theorem sourceWeight_nonneg (s : PredictionSource) : 0 ≤ sourceWeight s := by
  cases s <;> norm_num [sourceWeight]

/-! ### Claim C1 -/

/-- C1, counterexample: a task-prediction run whose (sole, selected,
high-confidence) candidate's task-store create call raises does not degrade to
a partial result — `generate_predictive_tasks` re-raises the error to its
caller, contradicting the claim that no failure propagates out of `run()`. -/
theorem c1_counterexample :
    generatePredictiveTasks (.ok ctx0) [gen95] failCreate 0 = .error "db down" := by
  with_unfolding_all rfl

/-- C1, amended: `optimize_schedule` indeed degrades data absence, generator
failure and executor failure to a (possibly empty or partial) result and never
returns an error; for `generate_predictive_tasks` only generator failures are
absorbed — a context-gathering failure propagates unchanged, and the run
succeeds under arbitrary generator failures only when the task store's create
call cannot fail. -/
theorem c1_amended :
    (∀ (pSrc : Except String (List Session)) (sSrc : Except String (List ScheduleBlock))
        (eff : SchedulingEffects), ∃ r, optimizeScheduleRun pSrc sSrc eff = .ok r)
  ∧ (∀ (e : String) (gens : List (PredictionContext → Except String (List Prediction)))
        (create : NewTaskFields → Except String Nat) (now : Int),
        generatePredictiveTasks (.error e) gens create now = .error e)
  ∧ (∀ (ctx : PredictionContext) (gens : List (PredictionContext → Except String (List Prediction)))
        (create : NewTaskFields → Except String Nat) (now : Int),
        (∀ f, ∃ id, create f = .ok id) →
        ∃ r, generatePredictiveTasks (.ok ctx) gens create now = .ok r) := by
  refine ⟨fun pSrc sSrc eff => ⟨_, rfl⟩, fun e gens create now => rfl, ?_⟩
  intro ctx gens create now hok
  obtain ⟨ts, hts⟩ := autoCreateSelected_ok hok
    ((rankByImportance (combinePredictions (gens.map (fun g => runGenerator g ctx))) now).take 3)
  refine ⟨⟨ts,
    (rankByImportance (combinePredictions (gens.map (fun g => runGenerator g ctx))) now).take 10,
    (rankByImportance (combinePredictions (gens.map (fun g => runGenerator g ctx))) now).length,
    ((rankByImportance (combinePredictions (gens.map (fun g => runGenerator g ctx))) now).filter
      (fun p => p.confidence > 4/5)).length⟩, ?_⟩
  simp only [generatePredictiveTasks]
  rw [hts]

/-- C1, witness: the third conjunct applied to a concrete context, generator
list and non-failing task store. -/
theorem c1_witness :
    ∃ r, generatePredictiveTasks (.ok ctx0) [gen95] okCreate 0 = .ok r :=
  c1_amended.2.2 ctx0 [gen95] okCreate 0 (fun _ => ⟨1, rfl⟩)

/-! ### Claim C2 -/

/-- C2, counterexample: in the prediction service an executor failure on the
first of two selected candidates aborts the whole run with the raised error —
no `failed` record is produced and the second candidate is never processed. -/
theorem c2_counterexample :
    generatePredictiveTasks (.ok ctx0) [genAB] failCreate 0 = .error "db down" := by
  with_unfolding_all rfl

/-- C2, amended: in the schedule-optimization service an executor exception is
caught at either catch site (the dispatch handler or the focus-block creator's
own handler), the candidate is recorded with status `failed` and the captured
message, and the set of processed candidates does not depend on executor
outcomes; in the prediction service, by contrast, `_auto_create_task`
re-raises a task-store failure instead of recording it. -/
theorem c2_amended :
    (∀ (eff : SchedulingEffects) (o : ScheduleOptimization) (msg : String),
        dispatchCall eff o = .error msg →
        (executeOptimization eff o).status = "failed"
          ∧ (executeOptimization eff o).error = some msg)
  ∧ (∀ (eff : SchedulingEffects) (o : ScheduleOptimization) (msg : String),
        o.optimizationType = .BLOCK_FOCUS_TIME → eff.createFocusTask o = .error msg →
        (executeOptimization eff o).status = "failed"
          ∧ (executeOptimization eff o).error = some msg)
  ∧ (∀ (eff eff' : SchedulingEffects) (l : List ScheduleOptimization) (c : Nat),
        (executeLoop eff l c).map Prod.fst = (executeLoop eff' l c).map Prod.fst)
  ∧ (∀ (create : NewTaskFields → Except String Nat) (p : Prediction) (msg : String),
        create (taskFieldsOf p) = .error msg → autoCreateTask create p = .error msg) := by
  refine ⟨?_, ?_, executeLoop_map_fst_indep, ?_⟩
  · intro eff o msg h
    constructor <;> simp [executeOptimization, h]
  · intro eff o msg ht hc
    have hd : dispatchCall eff o = .ok (createFocusBlockRecord eff o) := by
      simp [dispatchCall, ht]
    constructor <;> simp [executeOptimization, hd, createFocusBlockRecord, hc]
  · intro create p msg h
    simp [autoCreateTask, h]

/-- C2, witness: the first conjunct applied to a meeting-move candidate whose
calendar collaborator raises. -/
theorem c2_witness :
    (executeOptimization effFail optM).status = "failed"
      ∧ (executeOptimization effFail optM).error = some "boom" :=
  c2_amended.1 effFail optM "boom" rfl

/-! ### Claim C3 -/

/-- C3: for every schedule-optimization run, the executed candidates are
exactly the leading `executed_count` entries of the ranked list, so the
suggested list `optimizations[executed_count:]` is precisely the ranked
candidates minus the executed ones, and (for a duplicate-free ranking) no
executed candidate appears among the suggestions. -/
theorem c3_suggested_partition (pSrc : Except String (List Session))
    (sSrc : Except String (List ScheduleBlock)) (eff : SchedulingEffects) :
    optimizeScheduleRun pSrc sSrc eff
      = .ok ⟨(executeLoop eff (opportunitiesOf pSrc sSrc) 0).map Prod.snd,
             (opportunitiesOf pSrc sSrc).drop
               ((executeLoop eff (opportunitiesOf pSrc sSrc) 0).length)⟩
  ∧ (executeLoop eff (opportunitiesOf pSrc sSrc) 0).map Prod.fst
      ++ (opportunitiesOf pSrc sSrc).drop
          ((executeLoop eff (opportunitiesOf pSrc sSrc) 0).length)
      = opportunitiesOf pSrc sSrc
  ∧ ((opportunitiesOf pSrc sSrc).Nodup →
      ∀ o ∈ (executeLoop eff (opportunitiesOf pSrc sSrc) 0).map Prod.fst,
        o ∉ (opportunitiesOf pSrc sSrc).drop
            ((executeLoop eff (opportunitiesOf pSrc sSrc) 0).length)) := by
  have hprof : ∀ o ∈ opportunitiesOf pSrc sSrc, profileOk o :=
    fun o ho => mem_identify_profile ho
  have hsort : List.Sorted impactDescRel (opportunitiesOf pSrc sSrc) :=
    identify_sorted _ _
  have hpre := executeLoop_map_fst_take eff (opportunitiesOf pSrc sSrc) 0 hprof hsort
  refine ⟨rfl, ?_, ?_⟩
  · rw [hpre]
    exact List.take_append_drop _ _
  · intro hnd o ho hdrop
    rw [hpre] at ho
    exact List.disjoint_take_drop hnd (le_refl _) ho hdrop

/-- C3, witness: the duplicate-free-ranking conjunct at a concrete run (a
failed pattern source and an empty schedule, which still yields one
focus-block candidate from the default pattern). -/
theorem c3_witness :
    (opportunitiesOf (.error "down") (.ok [])).Nodup
  ∧ (∀ o ∈ (executeLoop eff0 (opportunitiesOf (.error "down") (.ok [])) 0).map Prod.fst,
      o ∉ (opportunitiesOf (.error "down") (.ok [])).drop
          ((executeLoop eff0 (opportunitiesOf (.error "down") (.ok [])) 0).length)) :=
  ⟨by with_unfolding_all decide,
   (c3_suggested_partition (.error "down") (.ok []) eff0).2.2 (by with_unfolding_all decide)⟩

/-! ### Claim C4 -/

/-- C4, counterexample: with hourly averages 0.5 everywhere except 0.9 at hour
10 and 0.95 at hour 11, hour 0 — whose average focus score is 0.5 — still lands
in `peak_hours`, because the top quartile always holds 6 of the 24 hours;
this refutes the claim that every 0.5-hour is excluded. -/
theorem c4_counterexample :
    (0 : Fin 24) ∈ (buildProductivityPattern sessions24).peakHours
  ∧ ((buildProductivityPattern sessions24).hourlyProductivity 0).avgFocusScore = 1/2 := by
  with_unfolding_all decide

/-- C4, amended: on these sessions `optimal_focus_blocks` is exactly the
window (10,12) at score 0.925 with quality `high`, and `peak_hours` ranks
hours 11 and 10 first — but the remaining four quartile slots are filled by
the lowest-indexed 0.5 hours 0, 1, 2, 3. -/
theorem c4_amended :
    (buildProductivityPattern sessions24).optimalFocusBlocks
      = [⟨10, 12, 37/40, some "high"⟩]
  ∧ (buildProductivityPattern sessions24).peakHours = [11, 10, 0, 1, 2, 3] := by
  with_unfolding_all decide

/-! ### Claim C5 -/

/-- C5, counterexample: when the data source succeeds with zero sessions the
tolerance keeps its `0.5` initialisation — it does not take the claimed 0.6
no-sessions default, which only the failure path uses. -/
theorem c5_counterexample :
    (getProductivityPatterns (.ok [])).contextSwitchTolerance = 1/2
  ∧ (getProductivityPatterns (.ok [])).contextSwitchTolerance ≠ 3/5 := by
  constructor
  · rfl
  · with_unfolding_all decide

/-- C5, amended: a successful query with zero sessions leaves the tolerance at
0.5; the 0.6 default belongs to the data-source-failure pattern; and with at
least one session the tolerance is `max(0.1, 1 - interruption_rate)`. -/
theorem c5_amended :
    (getProductivityPatterns (.ok [])).contextSwitchTolerance = 1/2
  ∧ (∀ e, (getProductivityPatterns (.error e)).contextSwitchTolerance = 3/5)
  ∧ (∀ sessions : List Session, sessions ≠ [] →
      (getProductivityPatterns (.ok sessions)).contextSwitchTolerance
        = max (1/10) (1 - overallInterruptionRate sessions)) := by
  refine ⟨rfl, fun e => rfl, ?_⟩
  intro sessions hne
  cases sessions with
  | nil => exact absurd rfl hne
  | cons a t => rfl

/-- C5, witness: the nonempty-session conjunct at a single interrupted
session. -/
theorem c5_witness :
    (getProductivityPatterns (.ok [sessionI])).contextSwitchTolerance
      = max (1/10) (1 - overallInterruptionRate [sessionI]) :=
  c5_amended.2.2 [sessionI] (by simp)

/-! ### Claim C6 -/

/-- C6: every schedule-optimization run executes at most 5 candidates and
every task-prediction run auto-creates at most 3 tasks, regardless of how
many candidates pass the confidence/impact gates. -/
theorem c6_bounded_execution :
    (∀ (pSrc : Except String (List Session)) (sSrc : Except String (List ScheduleBlock))
        (eff : SchedulingEffects) (r : SchedRunResult),
        optimizeScheduleRun pSrc sSrc eff = .ok r → r.executed.length ≤ 5)
  ∧ (∀ (ctxSrc : Except String PredictionContext)
        (gens : List (PredictionContext → Except String (List Prediction)))
        (create : NewTaskFields → Except String Nat) (now : Int) (r : PredRunResult),
        generatePredictiveTasks ctxSrc gens create now = .ok r →
        r.autoCreatedTasks.length ≤ 3) := by
  constructor
  · intro pSrc sSrc eff r h
    have hr := Except.ok.inj h
    subst hr
    simp only [List.length_map]
    have := executeLoop_length_le eff (opportunitiesOf pSrc sSrc) 0
    omega
  · intro ctxSrc gens create now r h
    cases ctxSrc with
    | error e => exact absurd h (by simp [generatePredictiveTasks])
    | ok ctx =>
      simp only [generatePredictiveTasks] at h
      cases hsel : autoCreateSelected create
          ((rankByImportance (combinePredictions (gens.map (fun g => runGenerator g ctx))) now).take 3) with
      | error e => rw [hsel] at h; exact absurd h (by simp)
      | ok auto =>
        rw [hsel] at h
        have hr := Except.ok.inj h
        subst hr
        have h1 := autoCreateSelected_length hsel
        have h2 := List.length_take 3
          (rankByImportance (combinePredictions (gens.map (fun g => runGenerator g ctx))) now)
        simp only
        omega

/-- C6, witness: both conjuncts at concrete runs. -/
theorem c6_witness :
    (⟨[⟨"focus_block_created", "created", none, some (4/5), some (9/10), some 120⟩], []⟩
        : SchedRunResult).executed.length ≤ 5
  ∧ (⟨[], [], 0, 0⟩ : PredRunResult).autoCreatedTasks.length ≤ 3 :=
  ⟨c6_bounded_execution.1 (.error "x") (.ok []) eff0 _ (by with_unfolding_all rfl),
   c6_bounded_execution.2 (.ok ctx0) [] okCreate 0 _ (by with_unfolding_all rfl)⟩

/-! ### Claim C7 -/

/-- C7: for nonnegative confidence the computed importance score equals
`clamp01(0.4·confidence + 0.3·priority_weight + urgency_bonus +
0.2·source_weight)` with the source's weight tables, and the score is
monotone non-decreasing in confidence, priority weight and urgency bonus with
the source held fixed. -/
theorem c7_scorer :
    (∀ (p : Prediction) (now : Int), 0 ≤ p.confidence →
        importanceScore p now
          = clamp01 (2/5 * p.confidence + 3/10 * priorityWeight p.priority
              + urgencyBonus p.dueDate now + 1/5 * sourceWeight p.source))
  ∧ (∀ (p₁ p₂ : Prediction) (now₁ now₂ : Int),
        p₁.confidence ≤ p₂.confidence →
        priorityWeight p₁.priority ≤ priorityWeight p₂.priority →
        urgencyBonus p₁.dueDate now₁ ≤ urgencyBonus p₂.dueDate now₂ →
        p₁.source = p₂.source →
        importanceScore p₁ now₁ ≤ importanceScore p₂ now₂) := by
  constructor
  · intro p now hc
    unfold importanceScore clamp01
    have hXY : p.confidence * (2/5) + priorityWeight p.priority * (3/10)
          + urgencyBonus p.dueDate now + sourceWeight p.source * (1/5)
        = 2/5 * p.confidence + 3/10 * priorityWeight p.priority
          + urgencyBonus p.dueDate now + 1/5 * sourceWeight p.source := by
      ring
    rw [← hXY]
    have h1 : 0 ≤ p.confidence * (2/5) := mul_nonneg hc (by norm_num)
    have h2 : 0 ≤ priorityWeight p.priority * (3/10) :=
      mul_nonneg (priorityWeight_nonneg _) (by norm_num)
    have h3 := urgencyBonus_nonneg p.dueDate now
    have h4 : 0 ≤ sourceWeight p.source * (1/5) :=
      mul_nonneg (sourceWeight_nonneg _) (by norm_num)
    rw [max_eq_right (le_min (by norm_num) (by linarith))]
  · intro p₁ p₂ now₁ now₂ hc hw hu hs
    unfold importanceScore
    have hsw : sourceWeight p₁.source = sourceWeight p₂.source := by rw [hs]
    have h1 : p₁.confidence * (2/5) ≤ p₂.confidence * (2/5) :=
      mul_le_mul_of_nonneg_right hc (by norm_num)
    have h2 : priorityWeight p₁.priority * (3/10) ≤ priorityWeight p₂.priority * (3/10) :=
      mul_le_mul_of_nonneg_right hw (by norm_num)
    exact min_le_min (le_refl 1) (by linarith)

/-- C7, witness: the clamp identity at a concrete prediction. -/
theorem c7_witness :
    importanceScore pred95 0
      = clamp01 (2/5 * pred95.confidence + 3/10 * priorityWeight pred95.priority
          + urgencyBonus pred95.dueDate 0 + 1/5 * sourceWeight pred95.source) :=
  c7_scorer.1 pred95 0 (by with_unfolding_all decide)

/-! ### Claim C8 -/

/-- C8: the merged-and-deduplicated candidate list drops a candidate exactly
when its lower-cased, trimmed title already occurred earlier in merged order
(in which case the rest of the output is unaffected), keeps it otherwise
right after the deduplication of the prefix, and collapses the concrete pair
`"Reschedule X"` / `"  reschedule x  "` to the first occurrence. -/
theorem c8_dedup_first_occurrence :
    (∀ (l₁ : List Prediction) (p : Prediction) (l₂ : List Prediction),
        normalizeTitle p.title ∈ l₁.map (fun q => normalizeTitle q.title) →
        combinePredictions [l₁ ++ p :: l₂] = combinePredictions [l₁ ++ l₂])
  ∧ (∀ (l₁ : List Prediction) (p : Prediction) (l₂ : List Prediction),
        normalizeTitle p.title ∉ l₁.map (fun q => normalizeTitle q.title) →
        ∃ post, combinePredictions [l₁ ++ p :: l₂] = dedupByTitle l₁ [] ++ p :: post)
  ∧ combinePredictions [[predUpper, predPadded]] = [predUpper] := by
  have hfl : ∀ l : List Prediction, combinePredictions [l] = dedupByTitle l [] := by
    intro l
    unfold combinePredictions
    simp
  refine ⟨?_, ?_, by with_unfolding_all decide⟩
  · intro l₁ p l₂ hmem
    rw [hfl, hfl, dedupByTitle_append l₁ (p :: l₂) [], dedupByTitle_append l₁ l₂ []]
    have hseen : normalizeTitle p.title ∈ seenAfter l₁ [] :=
      (mem_seenAfter l₁ [] _).mpr (Or.inr hmem)
    rw [dedupByTitle, if_pos hseen]
  · intro l₁ p l₂ hmem
    rw [hfl, dedupByTitle_append l₁ (p :: l₂) []]
    have hseen : normalizeTitle p.title ∉ seenAfter l₁ [] := by
      rw [mem_seenAfter]
      rintro (hx | hx)
      · exact absurd hx (by simp)
      · exact hmem hx
    rw [dedupByTitle, if_neg hseen]
    exact ⟨dedupByTitle l₂ (normalizeTitle p.title :: seenAfter l₁ []), rfl⟩

/-- C8, witness: the drop conjunct applied to the concrete case-and-padding
pair. -/
theorem c8_witness :
    combinePredictions [[predUpper] ++ predPadded :: []] = combinePredictions [[predUpper] ++ []] :=
  c8_dedup_first_occurrence.1 [predUpper] predPadded [] (by with_unfolding_all decide)

/-! ### Claim C9 -/

/-- C9: for every session history the computed pattern's peak and low-energy
hour lists are disjoint and each holds exactly 6 of the 24 hours (one
quartile); the fixed default pattern's lists are disjoint as well. -/
theorem c9_quartiles_disjoint :
    (∀ sessions : List Session,
        ((buildProductivityPattern sessions).peakHours).Disjoint
          ((buildProductivityPattern sessions).lowEnergyHours)
      ∧ (buildProductivityPattern sessions).peakHours.length = 6
      ∧ (buildProductivityPattern sessions).lowEnergyHours.length = 6)
  ∧ defaultProductivityPattern.peakHours.Disjoint
      defaultProductivityPattern.lowEnergyHours := by
  constructor
  · intro sessions
    have hnd := nodup_map_fst_sorted sessions
    have hlen : ((List.insertionSort scoreDescRel (hourlyScores sessions)).map Prod.fst).length
        = 24 := by
      rw [List.length_map, sortedScores_length]
    refine ⟨?_, ?_, ?_⟩
    · rw [peakHours_eq, lowEnergyHours_eq]
      exact List.disjoint_take_drop hnd (by norm_num)
    · rw [peakHours_eq, List.length_take, hlen]
      decide
    · rw [lowEnergyHours_eq, List.length_drop, hlen]
  · intro a ha hb
    fin_cases ha <;> revert hb <;> decide

/-- C9, witness: the computed-path conjunct at the empty history. -/
theorem c9_witness :
    ((buildProductivityPattern []).peakHours).Disjoint
      ((buildProductivityPattern []).lowEnergyHours)
  ∧ (buildProductivityPattern []).peakHours.length = 6
  ∧ (buildProductivityPattern []).lowEnergyHours.length = 6 :=
  c9_quartiles_disjoint.1 []

/-! ### Claim C10 -/

/-- C10: every auto-created task row is persisted with at least one estimated
pomodoro: the duration (defaulting to 25 when absent) is floor-divided by 25
and clamped from below at 1, so absent or sub-25-minute durations yield
exactly 1. -/
theorem c10_pomodoro_floor :
    (∀ p : Prediction, 1 ≤ (taskFieldsOf p).estimatedPomodoros)
  ∧ (∀ p : Prediction, p.estimatedDuration = none →
      (taskFieldsOf p).estimatedPomodoros = 1)
  ∧ (∀ (p : Prediction) (d : Int), p.estimatedDuration = some d → d < 25 →
      (taskFieldsOf p).estimatedPomodoros = 1) := by
  refine ⟨fun p => le_max_left 1 _, ?_, ?_⟩
  · intro p h
    show max 1 ((p.estimatedDuration.getD 25).fdiv 25) = 1
    rw [h]
    decide
  · intro p d h hd
    show max 1 ((p.estimatedDuration.getD 25).fdiv 25) = 1
    rw [h]
    simp only [Option.getD_some]
    rw [Int.fdiv_eq_ediv _ (by norm_num)]
    have : d / 25 ≤ 1 := by omega
    exact max_eq_left this

/-- C10, witness: the sub-25-minute conjunct at a concrete 10-minute
prediction. -/
theorem c10_witness : (taskFieldsOf predShort).estimatedPomodoros = 1 :=
  c10_pomodoro_floor.2.2 predShort 10 rfl (by norm_num)

end ProductivityEngine
